import Mathlib

/-!
# Local-file lyric source (`src/sources/localfiles.cpp`)

A shallow embedding of `ComputeFileTitle`, `LocalFileSource::query` and
`LocalFileSource::save`, together with the part of the host (foobar2000 SDK,
Win32) they call.

Conventions of the embedding:

* A path is the `std::string` the code builds; two paths name the same file
  exactly when the strings are equal.
* The host filesystem is a finite-map-like function from paths to nodes plus
  the list of host calls made so far.  Every host call that takes an
  `abort_callback` first consults a fault oracle indexed by the number of calls
  made so far, so any pattern of cancellations and I/O errors can be described.
* C++ exceptions are values of `Fault`; a function that can throw returns
  `Except Fault α × World` (the world is returned on both paths because a
  call that throws may already have changed the filesystem).
* Paths and titles are `const char*` and `pfc::string8` values, that is
  NUL-terminated strings: they have no embedded NUL, every `.c_str()` on them
  denotes the whole string, and the conversions between `pfc::string8`,
  `std::string` and `const char*` are dropped for them.
* Lyrics text and file contents are byte strings and may contain NUL.  `save`
  writes all `lyrics.size()` bytes (line 130); `query` reads the file into a
  `pfc::string8` (lines 79-80), which cannot hold an embedded NUL, so what it
  returns is what the host leaves in that string (`Host.read_into_string8`).
* Logging is dropped: it has no influence on results or on the filesystem.
-/

namespace OpenLyrics

/-! ## Data model -/

/-- Windows `GUID`. -/
structure GUID where
  data1 : Nat
  data2 : Nat
  data3 : Nat
  data4 : List Nat
deriving DecidableEq, Repr

/-- Value-initialised `GUID`, as produced by `return {};`. -/
def GUID.zero : GUID := ⟨0, 0, 0, [0, 0, 0, 0, 0, 0, 0, 0]⟩

/-- Line 15: `static const GUID src_guid`. -/
def src_guid : GUID :=
  ⟨0x76d90970, 0x1c98, 0x4fe2, [0x94, 0x4e, 0xac, 0xe4, 0x93, 0xf3, 0x8e, 0x85]⟩

/-- Modelled from the spec: `LyricDataRaw` is declared in `lyric_source.h`, which
is not among the sources; the spec gives the record as
source identifier, persistent storage path, lyrics text. -/
structure LyricDataRaw where
  source_id : GUID
  persistent_storage_path : String
  text : String
deriving DecidableEq, Repr

/-- The record produced by `return {};` and by `LyricDataRaw result = {};`. -/
def LyricDataRaw.empty : LyricDataRaw := ⟨GUID.zero, "", ""⟩

/-- Exceptions that can travel through `query` and `save`. -/
inductive Fault where
  /-- The host's `exception_aborted`, thrown when the `abort_callback` fires. -/
  | aborted
  /-- The host's `exception_io` family (not found, denied, sharing violation ...). -/
  | io (what : String)
  /-- A plain `std::exception(what)`, as thrown on line 104. -/
  | failure (what : String)
deriving DecidableEq, Repr

/-- Whether `catch (const std::exception&)` matches the exception.  In the host
SDK `exception_aborted` and `exception_io` are declared with
`PFC_DECLARE_EXCEPTION` on top of `pfc::exception`, which is `std::exception`,
so the handler on line 88 matches every one of them. -/
def Fault.isStdException : Fault → Bool
  | .aborted => true
  | .io _ => true
  | .failure _ => true

/-- A filesystem object. -/
inductive Node where
  | dir
  | file (content : String)
deriving DecidableEq, Repr

/-- Calls into the host filesystem that take an `abort_callback`. -/
inductive Op where
  | g_exists (path : String)
  | g_open_read (path : String)
  | read_string_raw (path : String)
  | g_create_directory (path : String)
  | g_open_write_new (path : String)
  | write_object (path : String) (data : String)
  | move_overwrite (src dst : String)
deriving DecidableEq, Repr

deriving instance DecidableEq for Except

/-- The NUL character. -/
def NUL : Char := Char.ofNat 0

/-- The string has no embedded NUL. -/
def NulFree (s : String) : Prop :=
  NUL ∉ s.data

instance (s : String) : Decidable (NulFree s) := by
  unfold NulFree; infer_instance

/-- The C string at the start of a buffer: everything before the first NUL. -/
def c_str (s : String) : String :=
  ⟨s.data.takeWhile (fun c => c != NUL)⟩

/-- Filesystem state and the host calls made so far (oldest first). -/
structure World where
  nodes : String → Option Node
  trace : List Op

/-- Everything the code obtains from its environment. -/
structure Host (Track Script : Type) where
  /-- `core_api::get_profile_path()`. -/
  profile_path : String
  /-- The directory `GetTempPath` reports, without its trailing backslash. -/
  temp_dir : String
  /-- `preferences::saving::filename_format()`. -/
  filename_format : String
  /-- `titleformat_compiler::compile`: `none` when it returns `false`. -/
  compile : String → Option Script
  /-- `metadb_handle::format_title`: success flag and the string produced. -/
  format_title : Track → Script → Bool × String
  /-- `pfc::string8::fix_filename_chars`. -/
  fix_filename_chars : String → String
  /-- `filesystem::get(p)->is_our_path(q)`, given as a function of `p` and `q`.
  `filesystem::get(p)` is taken to find a filesystem: `p` extends the lyrics
  directory, whose filesystem has already answered the `g_exists` call. -/
  is_our_path : String → String → Bool
  /-- Fault oracle: the exception, if any, raised by the `n`-th host call when
  that call is `op`. -/
  faults : Nat → Op → Option Fault
  /-- How many characters a `write_object` call that fails as the `n`-th host
  call has already put into the file. -/
  short_write : Nat → Nat
  /-- What `file::read_string_raw` leaves in the `pfc::string8` it is given, for
  a file whose bytes are the argument. -/
  read_into_string8 : String → String
  /-- A `pfc::string8` is NUL-terminated: it holds no embedded NUL. -/
  read_into_string8_nul_free : ∀ s, NulFree (read_into_string8 s)
  /-- Content without a NUL is read whole. -/
  read_into_string8_of_nul_free : ∀ s, NulFree s → read_into_string8 s = s

variable {Track Script : Type}

/-! ## Host calls -/

/-- Append a call to the trace. -/
def World.record (w : World) (op : Op) : World :=
  { w with trace := w.trace ++ [op] }

/-- Set or remove the node at a path. -/
def World.put (w : World) (path : String) (n : Option Node) : World :=
  { w with nodes := fun p => if p = path then n else w.nodes p }

/-- `filesystem::g_exists`: true for files and for directories. -/
def g_exists (h : Host Track Script) (path : String) (w : World) :
    Except Fault Bool × World :=
  match h.faults w.trace.length (.g_exists path) with
  | some e => (.error e, w.record (.g_exists path))
  | none => (.ok (w.nodes path).isSome, w.record (.g_exists path))

/-- `filesystem::g_open_read`: the handle is represented by the path. -/
def g_open_read (h : Host Track Script) (path : String) (w : World) :
    Except Fault String × World :=
  match h.faults w.trace.length (.g_open_read path) with
  | some e => (.error e, w.record (.g_open_read path))
  | none =>
    match w.nodes path with
    | some (.file _) => (.ok path, w.record (.g_open_read path))
    | some .dir => (.error (.io "Access denied"), w.record (.g_open_read path))
    | none => (.error (.io "Object not found"), w.record (.g_open_read path))

/-- `file::read_string_raw` into a `pfc::string8`: the content of the open file
as far as a NUL-terminated string can hold it. -/
def read_string_raw (h : Host Track Script) (file : String) (w : World) :
    Except Fault String × World :=
  match h.faults w.trace.length (.read_string_raw file) with
  | some e => (.error e, w.record (.read_string_raw file))
  | none =>
    match w.nodes file with
    | some (.file c) => (.ok (h.read_into_string8 c), w.record (.read_string_raw file))
    | _ => (.error (.io "I/O error"), w.record (.read_string_raw file))

/-- `filesystem::g_create_directory`. -/
def g_create_directory (h : Host Track Script) (path : String) (w : World) :
    Except Fault Unit × World :=
  match h.faults w.trace.length (.g_create_directory path) with
  | some e => (.error e, w.record (.g_create_directory path))
  | none =>
    match w.nodes path with
    | some _ => (.error (.io "Object already exists"), w.record (.g_create_directory path))
    | none => (.ok (), (w.put path (some .dir)).record (.g_create_directory path))

/-- `filesystem::g_open_write_new`: creates the file, or truncates an existing one. -/
def g_open_write_new (h : Host Track Script) (path : String) (w : World) :
    Except Fault String × World :=
  match h.faults w.trace.length (.g_open_write_new path) with
  | some e => (.error e, w.record (.g_open_write_new path))
  | none =>
    match w.nodes path with
    | some .dir => (.error (.io "Access denied"), w.record (.g_open_write_new path))
    | _ => (.ok path, (w.put path (some (.file ""))).record (.g_open_write_new path))

/-- `file::write_object`: appends the data at the end of the freshly opened
file.  A failing write may leave a prefix of the data behind. -/
def write_object (h : Host Track Script) (file : String) (data : String) (w : World) :
    Except Fault Unit × World :=
  match w.nodes file with
  | some (.file old) =>
    match h.faults w.trace.length (.write_object file data) with
    | some e =>
      (.error e, (w.put file (some (.file (old ++ data.take (h.short_write w.trace.length))))).record
        (.write_object file data))
    | none => (.ok (), (w.put file (some (.file (old ++ data)))).record (.write_object file data))
  | _ =>
    match h.faults w.trace.length (.write_object file data) with
    | some e => (.error e, w.record (.write_object file data))
    | none => (.error (.io "I/O error"), w.record (.write_object file data))

/-- `filesystem::move_overwrite`: the source file replaces whatever file is at
the destination. -/
def move_overwrite (h : Host Track Script) (src dst : String) (w : World) :
    Except Fault Unit × World :=
  match h.faults w.trace.length (.move_overwrite src dst) with
  | some e => (.error e, w.record (.move_overwrite src dst))
  | none =>
    match w.nodes src, w.nodes dst with
    | some (.file _), some .dir => (.error (.io "Access denied"), w.record (.move_overwrite src dst))
    | some (.file c), _ =>
      (.ok (), ((w.put src none).put dst (some (.file c))).record (.move_overwrite src dst))
    | _, _ => (.error (.io "Object not found"), w.record (.move_overwrite src dst))

/-- Win32 `GetTempPath` followed by `tchar_to_string` (lines 121-123).  The
Win32 contract is that the returned string ends with a backslash;
`tchar_to_string` (from `winstr_util.h`) only changes the character encoding. -/
def GetTempPath (h : Host Track Script) : String :=
  h.temp_dir ++ "\\"

/-! ## The source file -/

/-- Lines 8-13. -/
def GetLyricsDir (h : Host Track Script) : String :=
  h.profile_path ++ "\\lyrics\\"

/-- Lines 28-44.  Returns the `bool` and the final value of `out_title`. -/
def ComputeFileTitle (h : Host Track Script) (track : Track) (out_title : String) :
    Bool × String :=
  match h.compile h.filename_format with
  | none => (false, out_title)
  | some format_script =>
    let (format_success, save_file_title) := h.format_title track format_script
    (format_success, h.fix_filename_chars save_file_title)

/-- Line 65. -/
def extensions : List String := [".lrc", ".txt"]

/-- Lines 66-95: the loop over the remaining extensions and the final
`return result`. -/
def query_loop (h : Host Track Script) ( lyric_path_prefix : String) (result : LyricDataRaw) :
    List String → World → Except Fault LyricDataRaw × World
  | [], w => (.ok result, w)
  | ext :: rest, w =>
    let file_path := lyric_path_prefix ++ ext
    -- the `try` block: `some r` stands for `return r`
    let attempt : Except Fault (Option LyricDataRaw) × World :=
      match g_exists h file_path w with
      | (.error e, w1) => (.error e, w1)
      | (.ok false, w1) => (.ok none, w1)
      | (.ok true, w1) =>
        match g_open_read h file_path w1 with
        | (.error e, w2) => (.error e, w2)
        | (.ok file, w2) =>
          match read_string_raw h file w2 with
          | (.error e, w3) => (.error e, w3)
          | (.ok file_contents, w3) =>
            (.ok (some { result with persistent_storage_path := file_path, text := file_contents }), w3)
    match attempt with
    | (.ok (some r), w') => (.ok r, w')
    | (.ok none, w') => query_loop h lyric_path_prefix result rest w'
    | (.error e, w') =>
      -- `catch (const std::exception& e)`: log and go on with the next extension
      if e.isStdException then query_loop h lyric_path_prefix result rest w'
      else (.error e, w')

/-- Lines 46-96. -/
def query (h : Host Track Script) (track : Track) (w : World) :
    Except Fault LyricDataRaw × World :=
  match ComputeFileTitle h track "" with
  | (false, _) => (.ok LyricDataRaw.empty, w)
  | (true, file_title) =>
    let lyric_path_prefix := GetLyricsDir h ++ file_title
    let result : LyricDataRaw :=
      { LyricDataRaw.empty with source_id := src_guid, persistent_storage_path := lyric_path_prefix }
    query_loop h lyric_path_prefix result extensions w

/-- Lines 98-145. -/
def save (h : Host Track Script) (track : Track) (is_timestamped : Bool) (lyrics : String)
    (w : World) : Except Fault String × World :=
  match ComputeFileTitle h track "" with
  | (false, _) => (.error (.failure "Failed to determine save file title"), w)
  | (true, save_file_title) =>
    let output_dir := GetLyricsDir h
    match g_exists h output_dir w with
    | (.error e, w1) => (.error e, w1)
    | (.ok dir_exists, w1) =>
      match (if !dir_exists then g_create_directory h output_dir w1 else (.ok (), w1)) with
      | (.error e, w2) => (.error e, w2)
      | (.ok (), w2) =>
        let extension := if is_timestamped then ".lrc" else ".txt"
        let output_path := output_dir ++ save_file_title ++ extension
        let tmp_path := GetTempPath h ++ save_file_title
        match g_open_write_new h tmp_path w2 with
        | (.error e, w3) => (.error e, w3)
        | (.ok tmp_file, w3) =>
          match write_object h tmp_file lyrics w3 with
          | (.error e, w4) => (.error e, w4)
          | (.ok (), w4) =>
            if h.is_our_path output_path tmp_path then
              match move_overwrite h tmp_path output_path w4 with
              | (.error e, w5) => (.error e, w5)
              | (.ok (), w5) => (.ok output_path, w5)
            else
              (.ok output_path, w4)

/-! ## Vocabulary for the statements -/

/-- The host calls made on the way from `w` to `w'`. -/
def performed (w w' : World) : List Op :=
  w'.trace.drop w.trace.length

/-- The string `p` ends in `ext`. -/
def endsIn (p ext : String) : Prop :=
  ext.data <:+ p.data

instance (p ext : String) : Decidable (endsIn p ext) := by
  unfold endsIn; infer_instance

/-- A sample host: titles are the track name formatted by the script `%title%`;
any other template does not compile, and a track with an empty name fails to
format.  No call ever fails, and a file is read up to its first NUL. -/
def demoHost : Host String String where
  profile_path := "C:\\profile"
  temp_dir := "C:\\Temp"
  filename_format := "%title%"
  compile := fun s => if s = "%title%" then some s else none
  format_title := fun track _ => (track != "", track)
  fix_filename_chars := fun s => ⟨s.data.map (fun c => if c = '/' then '_' else c)⟩
  is_our_path := fun _ _ => true
  faults := fun _ _ => none
  short_write := fun _ => 0
  read_into_string8 := c_str
  read_into_string8_nul_free := fun s hmem => by
    have hp := List.mem_takeWhile_imp hmem
    simp at hp
  read_into_string8_of_nul_free := fun s hs =>
    String.ext (List.takeWhile_eq_self_iff.mpr (fun x hx => by
      have hne : x ≠ NUL := fun he => hs (he ▸ hx)
      simpa using hne))

/-- An empty filesystem. -/
def emptyWorld : World := ⟨fun _ => none, []⟩

/-- A filesystem holding the lyrics directory and both candidates for "Song". -/
def lyricsWorld : World :=
  ⟨fun p =>
    if p = "C:\\profile\\lyrics\\" then some .dir
    else if p = "C:\\profile\\lyrics\\Song.lrc" then some (.file "[00:01.00]line1")
    else if p = "C:\\profile\\lyrics\\Song.txt" then some (.file "line1")
    else none, []⟩

/-- A filesystem holding the lyrics directory and both candidates for "Song",
each with a NUL in its content. -/
def nulWorld : World :=
  ⟨fun p =>
    if p = "C:\\profile\\lyrics\\" then some .dir
    else if p = "C:\\profile\\lyrics\\Song.lrc" then some (.file "[00:01.00]line1\x00line2")
    else if p = "C:\\profile\\lyrics\\Song.txt" then some (.file "line1\x00line2")
    else none, []⟩

/-- The sample host with the abort callback firing after the first host call:
every later call throws `exception_aborted`. -/
def abortHost : Host String String :=
  { demoHost with faults := fun n _ => if 1 ≤ n then some .aborted else none }

/-- The sample host with "Song.lrc" locked: opening it always fails. -/
def lockedLrcHost : Host String String :=
  { demoHost with
    faults := fun _ op =>
      if op = .g_open_read "C:\\profile\\lyrics\\Song.lrc" then some (.io "Sharing violation")
      else none }

/-- The sample host with every read failing. -/
def unreadableHost : Host String String :=
  { demoHost with
    faults := fun _ op =>
      match op with
      | .read_string_raw _ => some (.io "I/O error")
      | _ => none }

/-- The sample host with a full disk: every write fails after three characters. -/
def diskFullHost : Host String String :=
  { demoHost with
    faults := fun _ op =>
      match op with
      | .write_object _ _ => some (.io "Disk full")
      | _ => none
    short_write := fun _ => 3 }

/-- The sample host with the temp directory outside the destination's filesystem. -/
def crossHost : Host String String :=
  { demoHost with is_our_path := fun _ _ => false }

/-- No oracle fault hits a probe of `p` (existence check, open, read) that
starts as host call number `n`. -/
def ProbeUnfaulted (h : Host Track Script) (n : Nat) (p : String) : Prop :=
  h.faults n (.g_exists p) = none ∧ h.faults (n + 1) (.g_open_read p) = none ∧
    h.faults (n + 2) (.read_string_raw p) = none

/-- The path `p` is a regular file with content `c`, and a probe of it that
starts as host call number `n` goes through. -/
def ReadableAt (h : Host Track Script) (w : World) (n : Nat) (p c : String) : Prop :=
  w.nodes p = some (.file c) ∧ ProbeUnfaulted h n p

/-- The existence check, the open or the read of `p`, performed from `w` in
that order, raises an I/O error. -/
def ProbeFails (h : Host Track Script) (w : World) (p : String) : Prop :=
  (∃ m, (g_exists h p w).1 = .error (.io m)) ∨
  ((g_exists h p w).1 = .ok true ∧
    ∃ m, (g_open_read h p (g_exists h p w).2).1 = .error (.io m)) ∨
  ((g_exists h p w).1 = .ok true ∧
    (g_open_read h p (g_exists h p w).2).1 = .ok p ∧
    ∃ m, (read_string_raw h p (g_open_read h p (g_exists h p w).2).2).1 = .error (.io m))

/-- The path `p` cannot be read, whenever it is probed: it is a directory, or
one of the three calls of the probe always raises. -/
def Unreadable (h : Host Track Script) (w : World) (p : String) : Prop :=
  w.nodes p = some .dir ∨ (∀ n, h.faults n (.g_exists p) ≠ none) ∨
    (∀ n, h.faults n (.g_open_read p) ≠ none) ∨ (∀ n, h.faults n (.read_string_raw p) ≠ none)

/-- The directory block of `save` (lines 108-112) runs to completion from `w`
and leaves `w2`: the directory is found, or it is not found and created. -/
def DirReady (h : Host Track Script) (w w2 : World) : Prop :=
  g_exists h (GetLyricsDir h) w = (.ok true, w2) ∨
  ∃ w1, g_exists h (GetLyricsDir h) w = (.ok false, w1) ∧
    g_create_directory h (GetLyricsDir h) w1 = (.ok (), w2)

/-! ## Paths -/

/-- A list that ends in `x` and splits as `b ++ c` with `c` nonempty has `x` in `c`. -/
theorem mem_of_snoc_eq_append {α : Type} (x : α) (d b c : List α)
    (h : d ++ [x] = b ++ c) (hc : c ≠ []) : x ∈ c := by
  have h2 := congrArg List.reverse h
  simp only [List.reverse_append, List.reverse_cons, List.reverse_nil, List.nil_append,
    List.singleton_append] at h2
  cases hr : c.reverse with
  | nil => exact absurd (List.reverse_eq_nil_iff.mp hr) hc
  | cons y ys =>
    rw [hr] at h2
    simp only [List.cons_append, List.cons.injEq] at h2
    have : y ∈ c.reverse := by rw [hr]; exact List.mem_cons_self _ _
    rw [h2.1]
    exact List.mem_reverse.mp this

/-- On character lists: `d ++ [x] ++ t` differs from `b ++ t ++ e` when `e` is
nonempty and free of `x`. -/
theorem snoc_append_ne_append_append (x : Char) (d b t e : List Char)
    (hx : x ∉ e) (he : e ≠ []) : (d ++ [x]) ++ t ≠ b ++ (t ++ e) := by
  intro h
  have hpos : 0 < e.length := List.length_pos.mpr he
  rcases List.append_eq_append_iff.mp h with ⟨a', _, ht⟩ | ⟨c', ha, ht⟩
  · have hl := congrArg List.length ht
    simp only [List.length_append] at hl
    omega
  · have hl := congrArg List.length ht
    simp only [List.length_append] at hl
    have hc : c' ≠ [] := by
      intro hc
      rw [hc, List.length_nil] at hl
      omega
    have hmem : x ∈ c' := mem_of_snoc_eq_append x d b c' ha hc
    have hcnt := congrArg (List.count x) ht
    simp only [List.count_append] at hcnt
    have h1 : 0 < List.count x c' := List.count_pos_iff.mpr hmem
    have h2 : List.count x e = 0 := List.count_eq_zero.mpr hx
    omega

/-- The temp path of `save` is never its output path: the temp directory ends
in a backslash and neither extension contains one. -/
theorem tmp_path_ne_output_path (h : Host Track Script) (title : String) (b : Bool) :
    GetTempPath h ++ title ≠ GetLyricsDir h ++ title ++ (if b then ".lrc" else ".txt") := by
  intro heq
  have h2 := String.ext_iff.mp heq
  simp only [GetTempPath, GetLyricsDir, String.data_append] at h2
  have hx : '\\' ∉ (if b then ".lrc" else ".txt" : String).data := by cases b <;> decide
  have he : (if b then ".lrc" else ".txt" : String).data ≠ [] := by cases b <;> decide
  refine snoc_append_ne_append_append '\\' h.temp_dir.data
    (h.profile_path.data ++ "\\lyrics\\".data) title.data _ hx he ?_
  simpa [List.append_assoc] using h2

/-- The output path of `save` is not the lyrics directory. -/
theorem output_path_ne_dir (h : Host Track Script) (title : String) (b : Bool) :
    GetLyricsDir h ++ title ++ (if b then ".lrc" else ".txt") ≠ GetLyricsDir h := by
  intro heq
  have h2 := congrArg String.length heq
  simp only [String.length_append] at h2
  have : (if b then ".lrc" else ".txt" : String).length = 4 := by cases b <;> decide
  omega

/-- The two candidates of `query` are different paths. -/
theorem lrc_ne_txt (pre : String) : pre ++ ".lrc" ≠ pre ++ ".txt" := by
  intro heq
  have h2 := String.ext_iff.mp heq
  simp only [String.data_append] at h2
  exact absurd (List.append_cancel_left h2) (by decide)


/-! ## The loop of `query` -/

/-- The handler on line 88 matches every exception of the model. -/
theorem isStdException_eq_true (e : Fault) : e.isStdException = true := by
  cases e <;> rfl

/-- The host reads a content back unchanged exactly when it has no NUL. -/
theorem read_into_string8_eq_iff (h : Host Track Script) (c : String) :
    h.read_into_string8 c = c ↔ NulFree c :=
  ⟨fun he => he ▸ h.read_into_string8_nul_free c, h.read_into_string8_of_nul_free c⟩

/-- Two records with the same id and path are equal exactly when their texts are. -/
theorem ok_record_eq_iff (g : GUID) (p t t' : String) :
    (Except.ok (⟨g, p, t⟩ : LyricDataRaw) : Except Fault LyricDataRaw) = .ok ⟨g, p, t'⟩ ↔
      t = t' := by
  simp

/-- One iteration of the loop of `query` on a candidate that is readable now:
the candidate is returned, as read into the `pfc::string8`, after exactly three
host calls. -/
theorem query_loop_hit (h : Host Track Script) ( pre : String) (result : LyricDataRaw)
    (ext : String) (rest : List String) (w : World) (c : String)
    (hr : ReadableAt h w w.trace.length (pre ++ ext) c) :
    query_loop h pre result (ext :: rest) w =
      (.ok { result with persistent_storage_path := pre ++ ext, text := h.read_into_string8 c },
        ⟨w.nodes, w.trace ++ [.g_exists (pre ++ ext), .g_open_read (pre ++ ext),
          .read_string_raw (pre ++ ext)]⟩) := by
  obtain ⟨hn, h1, h2, h3⟩ := hr
  simp [query_loop, g_exists, g_open_read, read_string_raw, World.record, hn, h1, h2, h3]

/-- One iteration of the loop of `query` on a candidate that is not readable
now: the loop goes on with the remaining extensions, the filesystem unchanged. -/
theorem query_loop_miss (h : Host Track Script) ( pre : String) (result : LyricDataRaw)
    (ext : String) (rest : List String) (w : World)
    (hm : ∀ c, ¬ ReadableAt h w w.trace.length (pre ++ ext) c) :
    ∃ w', query_loop h pre result (ext :: rest) w = query_loop h pre result rest w' ∧
      w'.nodes = w.nodes ∧ ∃ ops, w'.trace = w.trace ++ ops := by
  unfold ReadableAt ProbeUnfaulted at hm
  cases h1 : h.faults w.trace.length (.g_exists (pre ++ ext)) with
  | some e =>
    exact ⟨w.record (.g_exists (pre ++ ext)),
      by simp [query_loop, g_exists, h1, isStdException_eq_true], rfl, _, rfl⟩
  | none =>
    cases hn : w.nodes (pre ++ ext) with
    | none =>
      exact ⟨w.record (.g_exists (pre ++ ext)),
        by simp [query_loop, g_exists, h1, hn], rfl, _, rfl⟩
    | some nd =>
      cases h2 : h.faults (w.trace.length + 1) (.g_open_read (pre ++ ext)) with
      | some e =>
        exact ⟨(w.record (.g_exists (pre ++ ext))).record (.g_open_read (pre ++ ext)),
          by simp [query_loop, g_exists, g_open_read, World.record, h1, hn, h2,
            isStdException_eq_true], rfl,
            [.g_exists (pre ++ ext), .g_open_read (pre ++ ext)], by simp [World.record]⟩
      | none =>
        cases nd with
        | dir =>
          exact ⟨(w.record (.g_exists (pre ++ ext))).record (.g_open_read (pre ++ ext)),
            by simp [query_loop, g_exists, g_open_read, World.record, h1, hn, h2,
              isStdException_eq_true], rfl,
            [.g_exists (pre ++ ext), .g_open_read (pre ++ ext)], by simp [World.record]⟩
        | file c =>
          cases h3 : h.faults (w.trace.length + 2) (.read_string_raw (pre ++ ext)) with
          | some e =>
            exact ⟨((w.record (.g_exists (pre ++ ext))).record (.g_open_read (pre ++ ext))).record
                (.read_string_raw (pre ++ ext)),
              by simp [query_loop, g_exists, g_open_read, read_string_raw, World.record, h1, hn,
                h2, h3, isStdException_eq_true], rfl,
            [.g_exists (pre ++ ext), .g_open_read (pre ++ ext), .read_string_raw (pre ++ ext)],
            by simp [World.record]⟩
          | none => exact absurd ⟨hn, h1, h2, h3⟩ (hm c)


/-- A probe that raises an I/O error is not a successful read. -/
theorem not_readable_of_probeFails (h : Host Track Script) (w : World) (p : String)
    (hf : ProbeFails h w p) : ∀ c, ¬ ReadableAt h w w.trace.length p c := by
  rintro c ⟨hn, h1, h2, h3⟩
  rcases hf with ⟨m, hm⟩ | ⟨_, m, hm⟩ | ⟨_, _, m, hm⟩
  · simp [g_exists, h1] at hm
  · simp [g_exists, g_open_read, World.record, h1, h2, hn] at hm
  · simp [g_exists, g_open_read, read_string_raw, World.record, h1, h2, h3, hn] at hm

/-- A missing or unreadable path is not successfully read at any later time. -/
theorem not_readable_of_missing_or_unreadable (h : Host Track Script) (w w' : World)
    (p : String) (hp : w.nodes p = none ∨ Unreadable h w p) (hw : w'.nodes = w.nodes) (n : Nat) :
    ∀ c, ¬ ReadableAt h w' n p c := by
  rintro c ⟨hn, h1, h2, h3⟩
  rw [hw] at hn
  rcases hp with hp | hp | hp | hp | hp
  · rw [hp] at hn; cases hn
  · rw [hp] at hn; cases hn
  · exact hp n h1
  · exact hp (n + 1) h2
  · exact hp (n + 2) h3

/-- The loop of `query` always ends with a normal return. -/
theorem query_loop_returns (h : Host Track Script) ( pre : String) (result : LyricDataRaw)
    (exts : List String) : ∀ w, ∃ r, (query_loop h pre result exts w).1 = .ok r := by
  induction exts with
  | nil => intro w; exact ⟨result, rfl⟩
  | cons ext rest ih =>
    intro w
    by_cases hr : ∃ c, ReadableAt h w w.trace.length (pre ++ ext) c
    · obtain ⟨c, hc⟩ := hr
      rw [query_loop_hit h pre result ext rest w c hc]
      exact ⟨_, rfl⟩
    · obtain ⟨w', hq, _, _⟩ := query_loop_miss h pre result ext rest w
        (fun c hc => hr ⟨c, hc⟩)
      rw [hq]
      exact ih w'

/-- No exception leaves `query`, whatever the host does. -/
theorem query_never_raises (h : Host Track Script) (track : Track) (w : World) :
    ∃ r, (query h track w).1 = .ok r := by
  unfold query
  rcases ht : ComputeFileTitle h track "" with ⟨_ | _, title⟩
  · exact ⟨_, rfl⟩
  · exact query_loop_returns h _ _ _ w

/-- With a resolved title, `query` is its loop started on the prefix path. -/
theorem query_eq_loop (h : Host Track Script) (track : Track) (w : World) (title : String)
    (htitle : ComputeFileTitle h track "" = (true, title)) :
    query h track w =
      query_loop h (GetLyricsDir h ++ title) ⟨src_guid, GetLyricsDir h ++ title, ""⟩
        [".lrc", ".txt"] w := by
  simp [query, htitle, LyricDataRaw.empty, extensions]

/-! ## Host calls: effect on the filesystem -/

/-- `g_exists` only adds itself to the trace. -/
theorem g_exists_snd (h : Host Track Script) (p : String) (w : World) :
    (g_exists h p w).2 = w.record (.g_exists p) := by
  unfold g_exists; split <;> rfl

/-- `g_create_directory` adds itself to the trace. -/
theorem g_create_directory_trace (h : Host Track Script) (p : String) (w : World) :
    (g_create_directory h p w).2.trace = w.trace ++ [.g_create_directory p] := by
  unfold g_create_directory; split
  · rfl
  · split <;> rfl

/-- `g_create_directory` leaves every other path alone. -/
theorem g_create_directory_frame (h : Host Track Script) (p q : String) (w : World)
    (hq : q ≠ p) : (g_create_directory h p w).2.nodes q = w.nodes q := by
  unfold g_create_directory; split
  · rfl
  · split
    · rfl
    · simp [World.record, World.put, hq]

/-- `g_open_write_new` adds itself to the trace. -/
theorem g_open_write_new_trace (h : Host Track Script) (p : String) (w : World) :
    (g_open_write_new h p w).2.trace = w.trace ++ [.g_open_write_new p] := by
  unfold g_open_write_new; split
  · rfl
  · split <;> rfl

/-- `g_open_write_new` leaves every other path alone. -/
theorem g_open_write_new_frame (h : Host Track Script) (p q : String) (w : World)
    (hq : q ≠ p) : (g_open_write_new h p w).2.nodes q = w.nodes q := by
  unfold g_open_write_new; split
  · rfl
  · split
    · rfl
    · simp [World.record, World.put, hq]

/-- A successful `g_open_write_new` hands back the path and leaves an empty file there. -/
theorem g_open_write_new_ok (h : Host Track Script) (p f : String) (w w' : World)
    (ho : g_open_write_new h p w = (.ok f, w')) :
    f = p ∧ w'.nodes p = some (.file "") := by
  unfold g_open_write_new at ho
  split at ho
  · cases ho
  · split at ho
    · cases ho
    · cases ho
      exact ⟨rfl, by simp [World.record, World.put]⟩

/-- `write_object` adds itself to the trace. -/
theorem write_object_trace (h : Host Track Script) (f d : String) (w : World) :
    (write_object h f d w).2.trace = w.trace ++ [.write_object f d] := by
  unfold write_object; split <;> split <;> rfl

/-- `write_object` leaves every other path alone, also when it fails. -/
theorem write_object_frame (h : Host Track Script) (f d q : String) (w : World)
    (hq : q ≠ f) : (write_object h f d w).2.nodes q = w.nodes q := by
  unfold write_object; split <;> split <;> simp [World.record, World.put, hq]

/-- A successful `write_object` appends the data to the file. -/
theorem write_object_ok (h : Host Track Script) (f d : String) (w w' : World)
    (ho : write_object h f d w = (.ok (), w')) :
    ∃ old, w.nodes f = some (.file old) ∧ w'.nodes f = some (.file (old ++ d)) := by
  unfold write_object at ho
  split at ho
  · rename_i old hold
    split at ho
    · cases ho
    · cases ho
      exact ⟨old, hold, by simp [World.record, World.put]⟩
  · split at ho <;> cases ho

/-- `move_overwrite` adds itself to the trace. -/
theorem move_overwrite_trace (h : Host Track Script) (s d : String) (w : World) :
    (move_overwrite h s d w).2.trace = w.trace ++ [.move_overwrite s d] := by
  unfold move_overwrite; split
  · rfl
  · split <;> rfl

/-- A successful `move_overwrite` puts the content of the source at the destination. -/
theorem move_overwrite_ok (h : Host Track Script) (s d : String) (w w' : World)
    (ho : move_overwrite h s d w = (.ok (), w')) :
    ∃ c, w.nodes s = some (.file c) ∧ w'.nodes d = some (.file c) := by
  unfold move_overwrite at ho
  split at ho
  · cases ho
  · split at ho
    · cases ho
    · rename_i c hs _
      cases ho
      exact ⟨c, hs, by simp [World.record, World.put]⟩
    · cases ho

/-- The directory block leaves every path other than the directory as it was
and makes one or two host calls, neither of them a move. -/
theorem DirReady.effect (h : Host Track Script) (w w2 : World) (hd : DirReady h w w2) :
    (∀ q, q ≠ GetLyricsDir h → w2.nodes q = w.nodes q) ∧
    (w2.trace = w.trace ++ [.g_exists (GetLyricsDir h)] ∨
      w2.trace = w.trace ++ [.g_exists (GetLyricsDir h), .g_create_directory (GetLyricsDir h)]) := by
  rcases hd with h1 | ⟨w1, h1, h2⟩
  · have := congrArg Prod.snd h1
    rw [g_exists_snd] at this
    simp only at this
    subst this
    exact ⟨fun _ _ => rfl, Or.inl rfl⟩
  · have e1 := congrArg Prod.snd h1
    rw [g_exists_snd] at e1
    simp only at e1
    subst e1
    have e2 := congrArg Prod.snd h2
    simp only at e2
    subst e2
    refine ⟨fun q hq => ?_, Or.inr ?_⟩
    · rw [g_create_directory_frame h _ q _ hq]; rfl
    · rw [g_create_directory_trace]; simp [World.record]

/-- Once the directory block has completed, `save` is the rest of its body. -/
theorem save_after_dir (h : Host Track Script) (track : Track) (b : Bool) (lyrics : String)
    (w w2 : World) (title : String)
    (htitle : ComputeFileTitle h track "" = (true, title)) (hd : DirReady h w w2) :
    save h track b lyrics w =
      match g_open_write_new h (GetTempPath h ++ title) w2 with
      | (.error e, w3) => (.error e, w3)
      | (.ok tmp_file, w3) =>
        match write_object h tmp_file lyrics w3 with
        | (.error e, w4) => (.error e, w4)
        | (.ok (), w4) =>
          if h.is_our_path (GetLyricsDir h ++ title ++ (if b then ".lrc" else ".txt"))
              (GetTempPath h ++ title) then
            match move_overwrite h (GetTempPath h ++ title)
              (GetLyricsDir h ++ title ++ (if b then ".lrc" else ".txt")) w4 with
            | (.error e, w5) => (.error e, w5)
            | (.ok (), w5) => (.ok (GetLyricsDir h ++ title ++ (if b then ".lrc" else ".txt")), w5)
          else
            (.ok (GetLyricsDir h ++ title ++ (if b then ".lrc" else ".txt")), w4) := by
  unfold save
  rw [htitle]
  rcases hd with h1 | ⟨w1, h1, h2⟩
  · simp only [h1]
    rfl
  · simp only [h1]
    simp only [Bool.not_false, if_true, h2]

/-- A normal return of `save` means that the directory block, the opening and
the writing of the temp file all went through, and that the move, if it was
attempted, went through as well. -/
theorem save_ok_inv (h : Host Track Script) (track : Track) (b : Bool) (lyrics : String)
    (w : World) (title p : String)
    (htitle : ComputeFileTitle h track "" = (true, title))
    (hs : (save h track b lyrics w).1 = .ok p) :
    p = GetLyricsDir h ++ title ++ (if b then ".lrc" else ".txt") ∧
    ∃ w2 w3 w4 f, DirReady h w w2 ∧
      g_open_write_new h (GetTempPath h ++ title) w2 = (.ok f, w3) ∧
      write_object h f lyrics w3 = (.ok (), w4) ∧
      (h.is_our_path (GetLyricsDir h ++ title ++ (if b then ".lrc" else ".txt"))
          (GetTempPath h ++ title) = true →
        move_overwrite h (GetTempPath h ++ title)
          (GetLyricsDir h ++ title ++ (if b then ".lrc" else ".txt")) w4 =
          (.ok (), (save h track b lyrics w).2)) ∧
      (h.is_our_path (GetLyricsDir h ++ title ++ (if b then ".lrc" else ".txt"))
          (GetTempPath h ++ title) = false → (save h track b lyrics w).2 = w4) := by
  have hd : ∃ w2, DirReady h w w2 := by
    rcases hg : g_exists h (GetLyricsDir h) w with ⟨_ | bex, w1⟩
    · simp [save, htitle, hg] at hs
    · cases bex
      · rcases hc : g_create_directory h (GetLyricsDir h) w1 with ⟨_ | u, w2⟩
        · simp [save, htitle, hg, hc] at hs
        · exact ⟨w2, Or.inr ⟨w1, hg, hc⟩⟩
      · exact ⟨w1, Or.inl hg⟩
  obtain ⟨w2, hd⟩ := hd
  rw [save_after_dir h track b lyrics w w2 title htitle hd] at hs ⊢
  rcases ho : g_open_write_new h (GetTempPath h ++ title) w2 with ⟨_ | f, w3⟩
  · simp [ho] at hs
  · rcases hw : write_object h f lyrics w3 with ⟨_ | u, w4⟩
    · simp [ho, hw] at hs
    · cases hou : h.is_our_path (GetLyricsDir h ++ title ++ (if b then ".lrc" else ".txt"))
          (GetTempPath h ++ title)
      · simp only [ho, hw, hou] at hs ⊢
        simp only [Bool.false_eq_true, if_false, Except.ok.injEq] at hs ⊢
        exact ⟨hs.symm, w2, w3, w4, f, hd, ho, hw, by simp, fun _ => rfl⟩
      · rcases hm : move_overwrite h (GetTempPath h ++ title)
            (GetLyricsDir h ++ title ++ (if b then ".lrc" else ".txt")) w4 with ⟨_ | u, w5⟩
        · simp [ho, hw, hou, hm] at hs
        · simp only [ho, hw, hou, hm, if_true] at hs ⊢
          simp only [Except.ok.injEq] at hs
          exact ⟨hs.symm, w2, w3, w4, f, hd, ho, hw, fun _ => hm, by simp⟩

/-- After the temp file has been opened and written, it holds exactly the
lyrics, and every path other than the temp path and the lyrics directory is as
it was before `save` started. -/
theorem temp_written (h : Host Track Script) (lyrics tmp f : String) (w w2 w3 w4 : World)
    (hd : DirReady h w w2) (ho : g_open_write_new h tmp w2 = (.ok f, w3))
    (hw : write_object h f lyrics w3 = (.ok (), w4)) :
    w4.nodes tmp = some (.file lyrics) ∧
    (∀ q, q ≠ tmp → q ≠ GetLyricsDir h → w4.nodes q = w.nodes q) ∧
    ∃ ops, w4.trace = w.trace ++ ops ∧ ∀ op ∈ ops, ∀ s d, op ≠ .move_overwrite s d := by
  obtain ⟨hf, h3⟩ := g_open_write_new_ok h tmp f w2 w3 ho
  subst hf
  obtain ⟨old, hold, h4⟩ := write_object_ok h f lyrics w3 w4 hw
  rw [h3] at hold
  cases hold
  obtain ⟨hfr, htr⟩ := DirReady.effect h w w2 hd
  have e3 : w3 = (g_open_write_new h f w2).2 := by rw [ho]
  have e4 : w4 = (write_object h f lyrics w3).2 := by rw [hw]
  refine ⟨by simpa using h4, fun q hq hqd => ?_, ?_⟩
  · rw [e4, write_object_frame h f lyrics q w3 hq, e3, g_open_write_new_frame h f q w2 hq]
    exact hfr q hqd
  · have t4 : w4.trace = w2.trace ++ [.g_open_write_new f, .write_object f lyrics] := by
      rw [e4, write_object_trace, e3, g_open_write_new_trace]; simp
    rcases htr with htr | htr
    · refine ⟨[.g_exists (GetLyricsDir h), .g_open_write_new f, .write_object f lyrics],
        by rw [t4, htr]; simp, ?_⟩
      intro op hop s d
      simp only [List.mem_cons, List.mem_singleton, List.not_mem_nil, or_false] at hop
      rcases hop with rfl | rfl | rfl <;> simp
    · refine ⟨[.g_exists (GetLyricsDir h), .g_create_directory (GetLyricsDir h),
        .g_open_write_new f, .write_object f lyrics], by rw [t4, htr]; simp, ?_⟩
      intro op hop s d
      simp only [List.mem_cons, List.mem_singleton, List.not_mem_nil, or_false] at hop
      rcases hop with rfl | rfl | rfl | rfl <;> simp

/-- A `save` that returns normally and attempted the move has put exactly the
lyrics at the output path, which is the path it returns. -/
theorem save_ok_moved (h : Host Track Script) (track : Track) (b : Bool) (lyrics : String)
    (w : World) (title p : String)
    (htitle : ComputeFileTitle h track "" = (true, title))
    (hs : (save h track b lyrics w).1 = .ok p)
    (hsame : h.is_our_path (GetLyricsDir h ++ title ++ (if b then ".lrc" else ".txt"))
      (GetTempPath h ++ title) = true) :
    p = GetLyricsDir h ++ title ++ (if b then ".lrc" else ".txt") ∧
    (save h track b lyrics w).2.nodes p = some (.file lyrics) := by
  obtain ⟨hp, w2, w3, w4, f, hd, ho, hw, hmove, _⟩ := save_ok_inv h track b lyrics w title p htitle hs
  obtain ⟨ht, _, _⟩ := temp_written h lyrics _ f w w2 w3 w4 hd ho hw
  obtain ⟨c, hc, hdst⟩ := move_overwrite_ok h _ _ w4 _ (hmove hsame)
  rw [ht] at hc
  cases hc
  exact ⟨hp, by rw [hp]; exact hdst⟩

/-- Host calls made by the part of `save` that follows the directory block. -/
theorem save_tail_trace (h : Host Track Script) (track : Track) (b : Bool) (lyrics : String)
    (w w2 : World) (title : String)
    (htitle : ComputeFileTitle h track "" = (true, title)) (hd : DirReady h w w2) :
    ∃ ops, (save h track b lyrics w).2.trace = w2.trace ++ ops ∧
      ∀ op ∈ ops, op = .g_open_write_new (GetTempPath h ++ title) ∨
        op = .write_object (GetTempPath h ++ title) lyrics ∨
        op = .move_overwrite (GetTempPath h ++ title)
          (GetLyricsDir h ++ title ++ (if b then ".lrc" else ".txt")) := by
  rw [save_after_dir h track b lyrics w w2 title htitle hd]
  rcases ho : g_open_write_new h (GetTempPath h ++ title) w2 with ⟨r3, w3⟩
  have t3 : w3.trace = w2.trace ++ [.g_open_write_new (GetTempPath h ++ title)] := by
    have := g_open_write_new_trace h (GetTempPath h ++ title) w2
    rwa [ho] at this
  rcases r3 with e | f
  · exact ⟨_, t3, by simp⟩
  · obtain ⟨hf, _⟩ := g_open_write_new_ok h _ f w2 w3 ho
    subst hf
    dsimp only
    rcases hw : write_object h (GetTempPath h ++ title) lyrics w3 with ⟨r4, w4⟩
    have t4 : w4.trace = w2.trace ++ [.g_open_write_new (GetTempPath h ++ title),
        .write_object (GetTempPath h ++ title) lyrics] := by
      have := write_object_trace h (GetTempPath h ++ title) lyrics w3
      rw [hw] at this
      simp only at this
      rw [this, t3]
      simp
    rcases r4 with e | u
    · exact ⟨_, t4, by simp⟩
    · dsimp only
      cases hou : h.is_our_path (GetLyricsDir h ++ title ++ (if b then ".lrc" else ".txt"))
          (GetTempPath h ++ title)
      · exact ⟨_, t4, by simp⟩
      · simp only [if_true]
        rcases hm : move_overwrite h (GetTempPath h ++ title)
            (GetLyricsDir h ++ title ++ (if b then ".lrc" else ".txt")) w4 with ⟨r5, w5⟩
        have t5 : w5.trace = w2.trace ++ [.g_open_write_new (GetTempPath h ++ title),
            .write_object (GetTempPath h ++ title) lyrics,
            .move_overwrite (GetTempPath h ++ title)
              (GetLyricsDir h ++ title ++ (if b then ".lrc" else ".txt"))] := by
          have := move_overwrite_trace h (GetTempPath h ++ title)
            (GetLyricsDir h ++ title ++ (if b then ".lrc" else ".txt")) w4
          rw [hm] at this
          simp only at this
          rw [this, t4]
          simp
        rcases r5 with e | u
        · exact ⟨_, t5, by simp⟩
        · exact ⟨_, t5, by simp⟩

/-- Every file that `save` opens for writing is the temp path built from the title. -/
theorem save_opens_only_tmp (h : Host Track Script) (track : Track) (b : Bool) (lyrics : String)
    (w : World) (title p : String)
    (htitle : ComputeFileTitle h track "" = (true, title))
    (hp : Op.g_open_write_new p ∈ performed w (save h track b lyrics w).2) :
    p = GetTempPath h ++ title := by
  rcases hg : g_exists h (GetLyricsDir h) w with ⟨r1, w1⟩
  have t1 : w1.trace = w.trace ++ [.g_exists (GetLyricsDir h)] := by
    have := g_exists_snd h (GetLyricsDir h) w
    rw [hg] at this
    simp only at this
    rw [this]
    rfl
  have tail : ∀ w2 pre, DirReady h w w2 → w2.trace = w.trace ++ pre →
      (∀ op ∈ pre, ∀ q, op ≠ .g_open_write_new q) → p = GetTempPath h ++ title := by
    intro w2 pre hd hpre hno
    obtain ⟨ops, htr, hops⟩ := save_tail_trace h track b lyrics w w2 title htitle hd
    rw [performed, htr, hpre, List.append_assoc, List.drop_left, List.mem_append] at hp
    rcases hp with hp | hp
    · exact absurd rfl (hno _ hp p)
    · rcases hops _ hp with e | e | e
      · cases e; rfl
      · cases e
      · cases e
  rcases r1 with e | bex
  · have : (save h track b lyrics w).2 = w1 := by simp [save, htitle, hg]
    rw [this, performed, t1, List.drop_left] at hp
    simp at hp
  · cases bex
    · rcases hc : g_create_directory h (GetLyricsDir h) w1 with ⟨r2, w2⟩
      have t2 : w2.trace = w.trace ++
          [.g_exists (GetLyricsDir h), .g_create_directory (GetLyricsDir h)] := by
        have := g_create_directory_trace h (GetLyricsDir h) w1
        rw [hc] at this
        simp only at this
        rw [this, t1]
        simp
      rcases r2 with e | u
      · have : (save h track b lyrics w).2 = w2 := by simp [save, htitle, hg, hc]
        rw [this, performed, t2, List.drop_left] at hp
        simp at hp
      · exact tail w2 _ (Or.inr ⟨w1, hg, hc⟩) t2 (by simp)
    · exact tail w1 _ (Or.inl hg) t1 (by simp)

/-! ## The claims -/

/-- C1 (round trip), refuted: the text "line1", NUL, "line2" is written whole
by `save` and comes back from `query` as "line1". -/
theorem nul_text_not_round_tripped :
    (save demoHost "Song" true "line1\x00line2" emptyWorld).1 =
      .ok "C:\\profile\\lyrics\\Song.lrc" ∧
    (save demoHost "Song" true "line1\x00line2" emptyWorld).2.nodes
      "C:\\profile\\lyrics\\Song.lrc" = some (.file "line1\x00line2") ∧
    (query demoHost "Song" (save demoHost "Song" true "line1\x00line2" emptyWorld).2).1 =
      .ok ⟨src_guid, "C:\\profile\\lyrics\\Song.lrc", "line1"⟩ ∧
    (query demoHost "Song" (save demoHost "Song" true "line1\x00line2" emptyWorld).2).1 ≠
      .ok ⟨src_guid, "C:\\profile\\lyrics\\Song.lrc", "line1\x00line2"⟩ := by
  decide

/-- C1 as amended.  When the title resolves, no host call of a timestamped
`save` fails (the directory block, the opening and the writing of the temp file
and the move all go through), the destination's filesystem owns the temp path,
and no fault hits the probe that `query` then makes of the `.lrc` candidate:
`save` returns the destination path, which ends in ".lrc", and `query` returns
the record with the source's id, that same path and the saved text as read into
a NUL-terminated string, which is exactly the saved text precisely when the
text contains no NUL character. -/
theorem save_then_query_round_trip (h : Host Track Script) (track : Track) (text : String)
    (w w2 w3 w4 w5 : World) (title f : String)
    (htitle : ComputeFileTitle h track "" = (true, title))
    (hdir : DirReady h w w2)
    (hopen : g_open_write_new h (GetTempPath h ++ title) w2 = (.ok f, w3))
    (hwrite : write_object h f text w3 = (.ok (), w4))
    (hsame : h.is_our_path (GetLyricsDir h ++ title ++ ".lrc") (GetTempPath h ++ title) = true)
    (hmove : move_overwrite h (GetTempPath h ++ title) (GetLyricsDir h ++ title ++ ".lrc") w4 =
      (.ok (), w5))
    (hprobe : ProbeUnfaulted h w5.trace.length (GetLyricsDir h ++ title ++ ".lrc")) :
    save h track true text w = (.ok (GetLyricsDir h ++ title ++ ".lrc"), w5) ∧
    (query h track w5).1 =
      .ok ⟨src_guid, GetLyricsDir h ++ title ++ ".lrc", h.read_into_string8 text⟩ ∧
    ((query h track w5).1 = .ok ⟨src_guid, GetLyricsDir h ++ title ++ ".lrc", text⟩ ↔
      NulFree text) ∧
    endsIn (GetLyricsDir h ++ title ++ ".lrc") ".lrc" := by
  have hs : save h track true text w = (.ok (GetLyricsDir h ++ title ++ ".lrc"), w5) := by
    rw [save_after_dir h track true text w w2 title htitle hdir]
    simp [hopen, hwrite, hsame, hmove]
  obtain ⟨ht, _, _⟩ := temp_written h text _ f w w2 w3 w4 hdir hopen hwrite
  obtain ⟨c, hc, hnode⟩ := move_overwrite_ok h _ _ w4 w5 hmove
  rw [ht] at hc
  cases hc
  have hq : (query h track w5).1 =
      .ok ⟨src_guid, GetLyricsDir h ++ title ++ ".lrc", h.read_into_string8 text⟩ := by
    rw [query_eq_loop h track _ title htitle,
      query_loop_hit h _ _ ".lrc" [".txt"] _ text ⟨hnode, hprobe⟩]
  refine ⟨hs, hq, ?_, ?_⟩
  · rw [hq, ok_record_eq_iff]
    exact read_into_string8_eq_iff h text
  · simp only [endsIn, String.data_append]
    exact List.suffix_append _ _

/-- C1 as amended, on the sample host: saving "line1\nline2" for "Song" into an
empty filesystem and querying gives the text back with the `.lrc` path. -/
theorem save_then_query_round_trip_witness :
    (save demoHost "Song" true "line1\nline2" emptyWorld).1 = .ok "C:\\profile\\lyrics\\Song.lrc" ∧
    (query demoHost "Song" (save demoHost "Song" true "line1\nline2" emptyWorld).2).1 =
      .ok ⟨src_guid, "C:\\profile\\lyrics\\Song.lrc", "line1\nline2"⟩ ∧
    endsIn "C:\\profile\\lyrics\\Song.lrc" ".lrc" :=
  have key := save_then_query_round_trip demoHost "Song" "line1\nline2" emptyWorld
    (g_create_directory demoHost "C:\\profile\\lyrics\\"
      (g_exists demoHost "C:\\profile\\lyrics\\" emptyWorld).2).2
    (g_open_write_new demoHost "C:\\Temp\\Song"
      (g_create_directory demoHost "C:\\profile\\lyrics\\"
        (g_exists demoHost "C:\\profile\\lyrics\\" emptyWorld).2).2).2
    (write_object demoHost "C:\\Temp\\Song" "line1\nline2"
      (g_open_write_new demoHost "C:\\Temp\\Song"
        (g_create_directory demoHost "C:\\profile\\lyrics\\"
          (g_exists demoHost "C:\\profile\\lyrics\\" emptyWorld).2).2).2).2
    (save demoHost "Song" true "line1\nline2" emptyWorld).2
    "Song" "C:\\Temp\\Song" (by decide)
    (Or.inr ⟨_, Prod.ext (by decide) rfl, Prod.ext (by decide) rfl⟩)
    (Prod.ext (by decide) rfl) (Prod.ext (by decide) rfl) (by decide)
    (Prod.ext (by decide) rfl) ⟨rfl, rfl, rfl⟩
  ⟨congrArg Prod.fst key.1, key.2.2.1.mpr (by decide), key.2.2.2⟩

/-- C2 (extension priority), refuted: with both candidates present and a NUL in
the content of "Song.lrc", `query` returns the `.lrc` path with the content cut
short, not the content of the file. -/
theorem lrc_with_nul_returned_cut :
    nulWorld.nodes "C:\\profile\\lyrics\\Song.lrc" = some (.file "[00:01.00]line1\x00line2") ∧
    (query demoHost "Song" nulWorld).1 =
      .ok ⟨src_guid, "C:\\profile\\lyrics\\Song.lrc", "[00:01.00]line1"⟩ ∧
    (query demoHost "Song" nulWorld).1 ≠
      .ok ⟨src_guid, "C:\\profile\\lyrics\\Song.lrc", "[00:01.00]line1\x00line2"⟩ := by
  decide

/-- C2 as amended.  When the title resolves and the `.lrc` candidate is a
regular file that can be read now, `query` returns the `.lrc` path and, as text,
the content of the `.lrc` file as read into a NUL-terminated string, which is
exactly the content precisely when the content has no NUL character; it makes
exactly three host calls, all on the `.lrc` path: the `.txt` candidate is not
checked, opened or read, whatever is there. -/
theorem query_prefers_lrc (h : Host Track Script) (track : Track) (w : World)
    (title c : String)
    (htitle : ComputeFileTitle h track "" = (true, title))
    (hlrc : ReadableAt h w w.trace.length (GetLyricsDir h ++ title ++ ".lrc") c) :
    (query h track w).1 =
      .ok ⟨src_guid, GetLyricsDir h ++ title ++ ".lrc", h.read_into_string8 c⟩ ∧
    ((query h track w).1 = .ok ⟨src_guid, GetLyricsDir h ++ title ++ ".lrc", c⟩ ↔ NulFree c) ∧
    performed w (query h track w).2 =
      [.g_exists (GetLyricsDir h ++ title ++ ".lrc"),
       .g_open_read (GetLyricsDir h ++ title ++ ".lrc"),
       .read_string_raw (GetLyricsDir h ++ title ++ ".lrc")] ∧
    (∀ op ∈ performed w (query h track w).2,
      op ≠ .g_exists (GetLyricsDir h ++ title ++ ".txt") ∧
      op ≠ .g_open_read (GetLyricsDir h ++ title ++ ".txt") ∧
      op ≠ .read_string_raw (GetLyricsDir h ++ title ++ ".txt")) := by
  have hne := lrc_ne_txt (GetLyricsDir h ++ title)
  rw [query_eq_loop h track w title htitle, query_loop_hit h _ _ ".lrc" [".txt"] w c hlrc]
  refine ⟨rfl, ?_, by simp [performed], ?_⟩
  · rw [ok_record_eq_iff]
    exact read_into_string8_eq_iff h c
  · intro op hop
    simp only [performed, List.drop_left, List.mem_cons, List.mem_singleton, List.not_mem_nil,
      or_false] at hop
    rcases hop with rfl | rfl | rfl <;> simp [hne]

/-- C2 as amended, on the sample host with both "Song.lrc" and "Song.txt" present. -/
theorem query_prefers_lrc_witness :
    (query demoHost "Song" lyricsWorld).1 =
        .ok ⟨src_guid, "C:\\profile\\lyrics\\Song.lrc", "[00:01.00]line1"⟩ ∧
      performed lyricsWorld (query demoHost "Song" lyricsWorld).2 =
        [.g_exists "C:\\profile\\lyrics\\Song.lrc", .g_open_read "C:\\profile\\lyrics\\Song.lrc",
         .read_string_raw "C:\\profile\\lyrics\\Song.lrc"] :=
  have key := query_prefers_lrc demoHost "Song" lyricsWorld "Song" "[00:01.00]line1"
    (by decide) ⟨by decide, by decide, by decide, by decide⟩
  ⟨key.2.1.mpr (by decide), key.2.2.1⟩

/-- C3 (no partial writes).  When the title resolves and a fault `e` is raised
by the directory check, by the directory creation, by the opening of the temp
file or by the writing of the temp file (each time with the earlier steps
having gone through), `save` fails with `e` and the destination path holds
what it held before the call: nothing if it was absent, otherwise the same file
with the same content. -/
theorem save_fault_before_move_keeps_destination (h : Host Track Script) (track : Track)
    (is_timestamped : Bool) (lyrics : String) (w : World) (title : String) (e : Fault)
    (htitle : ComputeFileTitle h track "" = (true, title))
    (hfault :
      (g_exists h (GetLyricsDir h) w).1 = .error e ∨
      ((g_exists h (GetLyricsDir h) w).1 = .ok false ∧
        (g_create_directory h (GetLyricsDir h) (g_exists h (GetLyricsDir h) w).2).1 = .error e) ∨
      (∃ w2, DirReady h w w2 ∧
        (g_open_write_new h (GetTempPath h ++ title) w2).1 = .error e) ∨
      (∃ w2 w3 f, DirReady h w w2 ∧
        g_open_write_new h (GetTempPath h ++ title) w2 = (.ok f, w3) ∧
        (write_object h f lyrics w3).1 = .error e)) :
    (save h track is_timestamped lyrics w).1 = .error e ∧
    (save h track is_timestamped lyrics w).2.nodes
        (GetLyricsDir h ++ title ++ (if is_timestamped then ".lrc" else ".txt")) =
      w.nodes (GetLyricsDir h ++ title ++ (if is_timestamped then ".lrc" else ".txt")) := by
  have hnd := output_path_ne_dir h title is_timestamped
  have hnt := (tmp_path_ne_output_path h title is_timestamped).symm
  rcases hfault with h1 | ⟨h1, h2⟩ | ⟨w2, hd, h3⟩ | ⟨w2, w3, f, hd, h3, h4⟩
  · rcases hg : g_exists h (GetLyricsDir h) w with ⟨r1, w1⟩
    have e1 := g_exists_snd h (GetLyricsDir h) w
    rw [hg] at h1 e1
    simp only at h1 e1
    subst h1 e1
    simp [save, htitle, hg, World.record]
  · rcases hg : g_exists h (GetLyricsDir h) w with ⟨r1, w1⟩
    have e1 := g_exists_snd h (GetLyricsDir h) w
    rw [hg] at h1 h2 e1
    simp only at h1 h2 e1
    subst h1
    rcases hc : g_create_directory h (GetLyricsDir h) w1 with ⟨r2, w2⟩
    have e2 := g_create_directory_frame h (GetLyricsDir h) _ w1 hnd
    rw [hc] at h2 e2
    simp only at h2 e2
    subst h2
    simp only [save, htitle, hg, Bool.not_false, if_true, hc]
    exact ⟨trivial, by rw [e2, e1]; rfl⟩
  · obtain ⟨hfr, _⟩ := DirReady.effect h w w2 hd
    rw [save_after_dir h track is_timestamped lyrics w w2 title htitle hd]
    rcases ho : g_open_write_new h (GetTempPath h ++ title) w2 with ⟨r3, w3⟩
    have e3 := g_open_write_new_frame h (GetTempPath h ++ title) _ w2 hnt
    rw [ho] at h3 e3
    simp only at h3 e3
    subst h3
    exact ⟨rfl, by rw [← hfr _ hnd]; exact e3⟩
  · obtain ⟨hfr, _⟩ := DirReady.effect h w w2 hd
    rw [save_after_dir h track is_timestamped lyrics w w2 title htitle hd]
    obtain ⟨hf, _⟩ := g_open_write_new_ok h _ f w2 w3 h3
    subst hf
    have e3 := g_open_write_new_frame h (GetTempPath h ++ title) _ w2 hnt
    rw [h3] at e3 ⊢
    simp only at e3 ⊢
    rcases hw : write_object h (GetTempPath h ++ title) lyrics w3 with ⟨r4, w4⟩
    have e4 := write_object_frame h (GetTempPath h ++ title) lyrics _ w3 hnt
    rw [hw] at h4 e4
    simp only at h4 e4
    subst h4
    exact ⟨rfl, by rw [← hfr _ hnd, ← e3]; exact e4⟩

/-- C3 on the sample host with a full disk: the write of the temp file fails
and the existing "Song.lrc" keeps its content. -/
theorem save_fault_before_move_keeps_destination_witness :
    (save diskFullHost "Song" true "[00:02.00]new" lyricsWorld).1 = .error (.io "Disk full") ∧
    (save diskFullHost "Song" true "[00:02.00]new" lyricsWorld).2.nodes
        "C:\\profile\\lyrics\\Song.lrc" = some (.file "[00:01.00]line1") :=
  save_fault_before_move_keeps_destination diskFullHost "Song" true "[00:02.00]new" lyricsWorld
    "Song" (.io "Disk full") (by decide)
    (Or.inr (Or.inr (Or.inr
      ⟨(g_exists diskFullHost (GetLyricsDir diskFullHost) lyricsWorld).2,
        (g_open_write_new diskFullHost "C:\\Temp\\Song"
          (g_exists diskFullHost (GetLyricsDir diskFullHost) lyricsWorld).2).2,
        "C:\\Temp\\Song", Or.inl (Prod.ext (by decide) rfl), Prod.ext (by decide) rfl,
        by decide⟩)))

/-- C4 (temp-file uniqueness), refuted: two saves of the same track, one in
timestamped mode and one in plain mode, open the very same temp path. -/
theorem temp_path_shared_by_two_saves :
    ¬ ∀ p1 p2,
      Op.g_open_write_new p1 ∈
        performed emptyWorld (save demoHost "Song" true "[00:01.00]line1" emptyWorld).2 →
      Op.g_open_write_new p2 ∈
        performed emptyWorld (save demoHost "Song" false "line1" emptyWorld).2 →
      p1 ≠ p2 :=
  fun hall => hall "C:\\Temp\\Song" "C:\\Temp\\Song" (by decide) (by decide) rfl

/-- C4 as amended.  The temp path that `save` opens is the temp directory
followed by the resolved title, whatever the save mode, the lyrics and the
filesystem: two invocations use distinct temp paths exactly when their
resolved titles differ. -/
theorem save_temp_path_determined_by_title (h : Host Track Script) (t1 t2 : Track)
    (m1 m2 : Bool) (l1 l2 : String) (w1 w2 : World) (T1 T2 p1 p2 : String)
    (h1 : ComputeFileTitle h t1 "" = (true, T1))
    (h2 : ComputeFileTitle h t2 "" = (true, T2))
    (hp1 : Op.g_open_write_new p1 ∈ performed w1 (save h t1 m1 l1 w1).2)
    (hp2 : Op.g_open_write_new p2 ∈ performed w2 (save h t2 m2 l2 w2).2) :
    p1 = GetTempPath h ++ T1 ∧ p2 = GetTempPath h ++ T2 ∧ (p1 ≠ p2 ↔ T1 ≠ T2) := by
  have e1 := save_opens_only_tmp h t1 m1 l1 w1 T1 p1 h1 hp1
  have e2 := save_opens_only_tmp h t2 m2 l2 w2 T2 p2 h2 hp2
  subst e1 e2
  refine ⟨rfl, rfl, not_congr ⟨fun heq => ?_, fun heq => by rw [heq]⟩⟩
  have hd := String.ext_iff.mp heq
  simp only [String.data_append] at hd
  exact String.ext (List.append_cancel_left hd)

/-- C4 as amended, on the sample host: the titles "Song" and "Tune" give
distinct temp paths, the title "Song" saved in both modes gives one temp path. -/
theorem save_temp_path_determined_by_title_witness :
    ("C:\\Temp\\Song" ≠ "C:\\Temp\\Tune" ↔ "Song" ≠ "Tune") ∧
    ("C:\\Temp\\Song" ≠ "C:\\Temp\\Song" ↔ "Song" ≠ "Song") :=
  ⟨(save_temp_path_determined_by_title demoHost "Song" "Tune" true false "[00:01.00]line1" "line1"
      emptyWorld lyricsWorld "Song" "Tune" "C:\\Temp\\Song" "C:\\Temp\\Tune"
      (by decide) (by decide) (by decide) (by decide)).2.2,
    (save_temp_path_determined_by_title demoHost "Song" "Song" true false "[00:01.00]line1" "line1"
      emptyWorld lyricsWorld "Song" "Song" "C:\\Temp\\Song" "C:\\Temp\\Song"
      (by decide) (by decide) (by decide) (by decide)).2.2⟩

/-- C5 (lookup cancellation), evaluated where the code departs from it: both
candidates exist, the abort callback fires after the existence check of the
`.lrc` file, so the open of the `.lrc` file and then the existence check of the
`.txt` file throw `exception_aborted`.  Both are caught by the handler on line
88, and `query` returns normally with an empty text and the prefix path. -/
theorem query_swallows_abort :
    (query abortHost "Song" lyricsWorld).1 = .ok ⟨src_guid, "C:\\profile\\lyrics\\Song", ""⟩ ∧
    performed lyricsWorld (query abortHost "Song" lyricsWorld).2 =
      [.g_exists "C:\\profile\\lyrics\\Song.lrc", .g_open_read "C:\\profile\\lyrics\\Song.lrc",
       .g_exists "C:\\profile\\lyrics\\Song.txt"] ∧
    (g_open_read abortHost "C:\\profile\\lyrics\\Song.lrc"
      (g_exists abortHost "C:\\profile\\lyrics\\Song.lrc" lyricsWorld).2).1 = .error .aborted := by
  decide

/-- C6 (fault fallback), refuted: with "Song.lrc" locked and a NUL in the
content of "Song.txt", `query` falls back to the `.txt` path but returns its
content cut short, not the content of the file. -/
theorem txt_with_nul_returned_cut :
    nulWorld.nodes "C:\\profile\\lyrics\\Song.txt" = some (.file "line1\x00line2") ∧
    (query lockedLrcHost "Song" nulWorld).1 =
      .ok ⟨src_guid, "C:\\profile\\lyrics\\Song.txt", "line1"⟩ ∧
    (query lockedLrcHost "Song" nulWorld).1 ≠
      .ok ⟨src_guid, "C:\\profile\\lyrics\\Song.txt", "line1\x00line2"⟩ := by
  decide

/-- C6 as amended.  When the title resolves, the existence check, open or read
of the `.lrc` candidate raises an I/O error, and the `.txt` candidate is a
regular file that can be read, `query` returns normally with the path of the
`.txt` file and, as text, its content as read into a NUL-terminated string,
which is exactly the content precisely when the content has no NUL character. -/
theorem query_falls_back_to_txt (h : Host Track Script) (track : Track) (w : World)
    (title c : String)
    (htitle : ComputeFileTitle h track "" = (true, title))
    (hfail : ProbeFails h w (GetLyricsDir h ++ title ++ ".lrc"))
    (htxt : ∀ n, ReadableAt h w n (GetLyricsDir h ++ title ++ ".txt") c) :
    (query h track w).1 =
      .ok ⟨src_guid, GetLyricsDir h ++ title ++ ".txt", h.read_into_string8 c⟩ ∧
    ((query h track w).1 = .ok ⟨src_guid, GetLyricsDir h ++ title ++ ".txt", c⟩ ↔ NulFree c) := by
  have hq : (query h track w).1 =
      .ok ⟨src_guid, GetLyricsDir h ++ title ++ ".txt", h.read_into_string8 c⟩ := by
    rw [query_eq_loop h track w title htitle]
    obtain ⟨w', hq, hn, _⟩ := query_loop_miss h (GetLyricsDir h ++ title)
      ⟨src_guid, GetLyricsDir h ++ title, ""⟩ ".lrc" [".txt"] w
      (not_readable_of_probeFails h w _ hfail)
    have hr : ReadableAt h w' w'.trace.length (GetLyricsDir h ++ title ++ ".txt") c :=
      ⟨by rw [hn]; exact (htxt 0).1, (htxt w'.trace.length).2⟩
    rw [hq, query_loop_hit h _ _ ".txt" [] w' c hr]
  refine ⟨hq, ?_⟩
  rw [hq, ok_record_eq_iff]
  exact read_into_string8_eq_iff h c

/-- C6 as amended, on the sample host with "Song.lrc" locked and "Song.txt"
readable. -/
theorem query_falls_back_to_txt_witness :
    (query lockedLrcHost "Song" lyricsWorld).1 =
      .ok ⟨src_guid, "C:\\profile\\lyrics\\Song.txt", "line1"⟩ :=
  (query_falls_back_to_txt lockedLrcHost "Song" lyricsWorld "Song" "line1" (by decide)
    (Or.inr (Or.inl ⟨by decide, "Sharing violation", by decide⟩))
    (fun _ => ⟨by decide, rfl, rfl, rfl⟩)).2.mpr (by decide)

/-- C7 (cross-filesystem save).  When the title resolves, the directory block,
the opening and the writing of the temp file go through, and the destination's
filesystem does not own the temp path, `save` returns the output path normally,
no move is among the host calls it made, the destination path holds what it
held before, and the temp file holds exactly the lyrics. -/
theorem save_cross_filesystem_leaves_temp (h : Host Track Script) (track : Track)
    (is_timestamped : Bool) (lyrics : String) (w w2 w3 w4 : World) (title f : String)
    (htitle : ComputeFileTitle h track "" = (true, title))
    (hdir : DirReady h w w2)
    (hopen : g_open_write_new h (GetTempPath h ++ title) w2 = (.ok f, w3))
    (hwrite : write_object h f lyrics w3 = (.ok (), w4))
    (hcross : h.is_our_path (GetLyricsDir h ++ title ++ (if is_timestamped then ".lrc" else ".txt"))
      (GetTempPath h ++ title) = false) :
    save h track is_timestamped lyrics w =
      (.ok (GetLyricsDir h ++ title ++ (if is_timestamped then ".lrc" else ".txt")), w4) ∧
    (∀ op ∈ performed w w4, ∀ s d, op ≠ .move_overwrite s d) ∧
    w4.nodes (GetLyricsDir h ++ title ++ (if is_timestamped then ".lrc" else ".txt")) =
      w.nodes (GetLyricsDir h ++ title ++ (if is_timestamped then ".lrc" else ".txt")) ∧
    w4.nodes (GetTempPath h ++ title) = some (.file lyrics) := by
  obtain ⟨htmp, hfr, ops, htr, hops⟩ := temp_written h lyrics _ f w w2 w3 w4 hdir hopen hwrite
  refine ⟨?_, ?_, ?_, htmp⟩
  · rw [save_after_dir h track is_timestamped lyrics w w2 title htitle hdir]
    simp [hopen, hwrite, hcross]
  · rw [performed, htr, List.drop_left]
    exact hops
  · exact hfr _ (tmp_path_ne_output_path h title is_timestamped).symm
      (output_path_ne_dir h title is_timestamped)

/-- C7 on the sample host with the temp directory on another filesystem. -/
theorem save_cross_filesystem_leaves_temp_witness :
    (save crossHost "Song" true "[00:02.00]new" lyricsWorld).1 =
      .ok "C:\\profile\\lyrics\\Song.lrc" ∧
    (save crossHost "Song" true "[00:02.00]new" lyricsWorld).2.nodes
        "C:\\profile\\lyrics\\Song.lrc" = some (.file "[00:01.00]line1") ∧
    (save crossHost "Song" true "[00:02.00]new" lyricsWorld).2.nodes "C:\\Temp\\Song" =
      some (.file "[00:02.00]new") :=
  have key := save_cross_filesystem_leaves_temp crossHost "Song" true "[00:02.00]new" lyricsWorld
    (g_exists crossHost (GetLyricsDir crossHost) lyricsWorld).2
    (g_open_write_new crossHost "C:\\Temp\\Song"
      (g_exists crossHost (GetLyricsDir crossHost) lyricsWorld).2).2
    (write_object crossHost "C:\\Temp\\Song" "[00:02.00]new"
      (g_open_write_new crossHost "C:\\Temp\\Song"
        (g_exists crossHost (GetLyricsDir crossHost) lyricsWorld).2).2).2
    "Song" "C:\\Temp\\Song" (by decide) (Or.inl (Prod.ext (by decide) rfl))
    (Prod.ext (by decide) rfl) (Prod.ext (by decide) rfl) (by decide)
  ⟨congrArg Prod.fst key.1, key.2.2.1, key.2.2.2⟩

/-- C8 (bad template).  When the format template does not compile, or title
evaluation reports failure for the track, `query` returns the empty record
(zero id, empty path, empty text) and `save` throws; in both cases the world is
returned as it was, so no host call has been made and the filesystem is
unchanged. -/
theorem bad_template_query_empty_save_throws (h : Host Track Script) (track : Track)
    (is_timestamped : Bool) (lyrics : String) (w : World)
    (hbad : h.compile h.filename_format = none ∨
      ∃ s, h.compile h.filename_format = some s ∧ (h.format_title track s).1 = false) :
    query h track w = (.ok ⟨GUID.zero, "", ""⟩, w) ∧
    save h track is_timestamped lyrics w =
      (.error (.failure "Failed to determine save file title"), w) := by
  have ht : (ComputeFileTitle h track "").1 = false := by
    rcases hbad with hc | ⟨s, hc, hs⟩
    · simp [ComputeFileTitle, hc]
    · simp [ComputeFileTitle, hc, hs]
  rcases hq : ComputeFileTitle h track "" with ⟨ok, title⟩
  rw [hq] at ht
  simp only at ht
  subst ht
  constructor
  · simp [query, hq, LyricDataRaw.empty]
  · simp [save, hq]

/-- C8 on the sample host with the template "%title", which does not compile. -/
theorem bad_template_query_empty_save_throws_witness :
    query { demoHost with filename_format := "%title" } "Song" emptyWorld =
        (.ok ⟨GUID.zero, "", ""⟩, emptyWorld) ∧
      save { demoHost with filename_format := "%title" } "Song" true "line1" emptyWorld =
        (.error (.failure "Failed to determine save file title"), emptyWorld) :=
  bad_template_query_empty_save_throws { demoHost with filename_format := "%title" } "Song" true
    "line1" emptyWorld (Or.inl (by decide))

/-- C9 (not found is not an error).  When the title resolves and each of the
two candidates is missing or cannot be read, `query` returns normally with the
source's own id, empty text, and the path set to the initial prefix path
(lyrics directory followed by the title). -/
theorem query_not_found_returns_empty (h : Host Track Script) (track : Track) (w : World)
    (title : String)
    (htitle : ComputeFileTitle h track "" = (true, title))
    (hlrc : w.nodes (GetLyricsDir h ++ title ++ ".lrc") = none ∨
      Unreadable h w (GetLyricsDir h ++ title ++ ".lrc"))
    (htxt : w.nodes (GetLyricsDir h ++ title ++ ".txt") = none ∨
      Unreadable h w (GetLyricsDir h ++ title ++ ".txt")) :
    (query h track w).1 = .ok ⟨src_guid, GetLyricsDir h ++ title, ""⟩ := by
  rw [query_eq_loop h track w title htitle]
  obtain ⟨w1, hq1, hn1, _⟩ := query_loop_miss h (GetLyricsDir h ++ title)
    ⟨src_guid, GetLyricsDir h ++ title, ""⟩ ".lrc" [".txt"] w
    (not_readable_of_missing_or_unreadable h w w _ hlrc rfl _)
  obtain ⟨w2, hq2, _, _⟩ := query_loop_miss h (GetLyricsDir h ++ title)
    ⟨src_guid, GetLyricsDir h ++ title, ""⟩ ".txt" [] w1
    (not_readable_of_missing_or_unreadable h w w1 _ htxt hn1 _)
  rw [hq1, hq2]
  rfl

/-- C9 on the sample host: once with an empty filesystem, once with both
candidates present and every read failing. -/
theorem query_not_found_returns_empty_witness :
    (query demoHost "Song" emptyWorld).1 = .ok ⟨src_guid, "C:\\profile\\lyrics\\Song", ""⟩ ∧
    (query unreadableHost "Song" lyricsWorld).1 = .ok ⟨src_guid, "C:\\profile\\lyrics\\Song", ""⟩ :=
  ⟨query_not_found_returns_empty demoHost "Song" emptyWorld "Song" (by decide)
      (Or.inl (by decide)) (Or.inl (by decide)),
    query_not_found_returns_empty unreadableHost "Song" lyricsWorld "Song" (by decide)
      (Or.inr (Or.inr (Or.inr (Or.inr (fun _ => by simp [unreadableHost])))))
      (Or.inr (Or.inr (Or.inr (Or.inr (fun _ => by simp [unreadableHost])))))⟩

/-- C10 (plain-text save and an existing `.lrc`), refuted: with "Song.lrc"
present but locked, a plain-text save followed by `query` returns the saved text
with the `.txt` path although the `.lrc` file exists. -/
theorem plain_save_read_back_beside_locked_lrc :
    (save lockedLrcHost "Song" false "plain words" lyricsWorld).1 =
      .ok "C:\\profile\\lyrics\\Song.txt" ∧
    ¬ ((query lockedLrcHost "Song"
          (save lockedLrcHost "Song" false "plain words" lyricsWorld).2).1 =
        .ok ⟨src_guid, "C:\\profile\\lyrics\\Song.txt", "plain words"⟩ ↔
      (save lockedLrcHost "Song" false "plain words" lyricsWorld).2.nodes
        "C:\\profile\\lyrics\\Song.lrc" = none) := by
  decide

/-- C10 as amended.  After a plain-text `save` that returned normally and
moved the temp file onto the `.txt` path, and provided no fault hits a probe of
the `.txt` candidate, `query` returns the saved text, as read into a
NUL-terminated string, with the `.txt` path exactly when the `.lrc` candidate
cannot be read at that moment (it is missing, is not a regular file, or its
existence check, open or read raises); whenever the `.lrc` candidate can be
read, `query` returns its content, read the same way, and its path.  A text or
content without a NUL character is read back exactly. -/
theorem plain_save_then_query (h : Host Track Script) (track : Track) (text : String)
    (w : World) (title p : String)
    (htitle : ComputeFileTitle h track "" = (true, title))
    (hsave : (save h track false text w).1 = .ok p)
    (hsame : h.is_our_path (GetLyricsDir h ++ title ++ ".txt") (GetTempPath h ++ title) = true)
    (htxt : ∀ n, ProbeUnfaulted h n (GetLyricsDir h ++ title ++ ".txt")) :
    ((query h track (save h track false text w).2).1 =
        .ok ⟨src_guid, GetLyricsDir h ++ title ++ ".txt", h.read_into_string8 text⟩ ↔
      ¬ ∃ c, ReadableAt h (save h track false text w).2
        (save h track false text w).2.trace.length (GetLyricsDir h ++ title ++ ".lrc") c) ∧
    (NulFree text →
      ((query h track (save h track false text w).2).1 =
          .ok ⟨src_guid, GetLyricsDir h ++ title ++ ".txt", text⟩ ↔
        ¬ ∃ c, ReadableAt h (save h track false text w).2
          (save h track false text w).2.trace.length (GetLyricsDir h ++ title ++ ".lrc") c)) ∧
    (∀ c, ReadableAt h (save h track false text w).2
        (save h track false text w).2.trace.length (GetLyricsDir h ++ title ++ ".lrc") c →
      (query h track (save h track false text w).2).1 =
        .ok ⟨src_guid, GetLyricsDir h ++ title ++ ".lrc", h.read_into_string8 c⟩ ∧
      (NulFree c → (query h track (save h track false text w).2).1 =
        .ok ⟨src_guid, GetLyricsDir h ++ title ++ ".lrc", c⟩)) := by
  obtain ⟨hp, hnode⟩ := save_ok_moved h track false text w title p htitle hsave hsame
  simp only [Bool.false_eq_true, if_false] at hp
  subst hp
  have hhit : ∀ c, ReadableAt h (save h track false text w).2
      (save h track false text w).2.trace.length (GetLyricsDir h ++ title ++ ".lrc") c →
      (query h track (save h track false text w).2).1 =
        .ok ⟨src_guid, GetLyricsDir h ++ title ++ ".lrc", h.read_into_string8 c⟩ := by
    intro c hc
    rw [query_eq_loop h track _ title htitle, query_loop_hit h _ _ ".lrc" [".txt"] _ c hc]
  have hiff : (query h track (save h track false text w).2).1 =
        .ok ⟨src_guid, GetLyricsDir h ++ title ++ ".txt", h.read_into_string8 text⟩ ↔
      ¬ ∃ c, ReadableAt h (save h track false text w).2
        (save h track false text w).2.trace.length (GetLyricsDir h ++ title ++ ".lrc") c := by
    refine ⟨fun hq => ?_, fun hno => ?_⟩
    · rintro ⟨c, hc⟩
      rw [hhit c hc] at hq
      simp only [Except.ok.injEq, LyricDataRaw.mk.injEq, true_and] at hq
      exact lrc_ne_txt _ hq.1
    · rw [query_eq_loop h track _ title htitle]
      obtain ⟨w', hq, hn, _⟩ := query_loop_miss h (GetLyricsDir h ++ title)
        ⟨src_guid, GetLyricsDir h ++ title, ""⟩ ".lrc" [".txt"] (save h track false text w).2
        (fun c hc => hno ⟨c, hc⟩)
      have hr : ReadableAt h w' w'.trace.length (GetLyricsDir h ++ title ++ ".txt") text :=
        ⟨by rw [hn]; exact hnode, htxt _⟩
      rw [hq, query_loop_hit h _ _ ".txt" [] w' text hr]
  refine ⟨hiff, fun hnf => ?_, fun c hc => ⟨hhit c hc, fun hnf => ?_⟩⟩
  · rw [h.read_into_string8_of_nul_free text hnf] at hiff
    exact hiff
  · rw [hhit c hc, h.read_into_string8_of_nul_free c hnf]

/-- C10 as amended, on the sample host: with "Song.lrc" locked the saved plain
text comes back, with "Song.lrc" readable its content comes back. -/
theorem plain_save_then_query_witness :
    (query lockedLrcHost "Song" (save lockedLrcHost "Song" false "plain words" lyricsWorld).2).1 =
        .ok ⟨src_guid, "C:\\profile\\lyrics\\Song.txt", "plain words"⟩ ∧
    (query demoHost "Song" (save demoHost "Song" false "plain words" lyricsWorld).2).1 =
        .ok ⟨src_guid, "C:\\profile\\lyrics\\Song.lrc", "[00:01.00]line1"⟩ :=
  ⟨((plain_save_then_query lockedLrcHost "Song" "plain words" lyricsWorld "Song"
      "C:\\profile\\lyrics\\Song.txt" (by decide) (by decide) (by decide)
      (fun _ => ⟨rfl, rfl, rfl⟩)).2.1 (by decide)).mpr
      (fun ⟨_, hc⟩ => absurd hc.2.2.1 (by decide)),
    ((plain_save_then_query demoHost "Song" "plain words" lyricsWorld "Song"
      "C:\\profile\\lyrics\\Song.txt" (by decide) (by decide) (by decide)
      (fun _ => ⟨rfl, rfl, rfl⟩)).2.2 "[00:01.00]line1" ⟨by decide, rfl, rfl, rfl⟩).2
      (by decide)⟩

end OpenLyrics
